import Mathlib

/-!
Verification development for the JA3 fingerprint-to-ClientHello compiler of
guojunwengit/chttp (`tlsextensions.go`).

The Go source is shallowly embedded below.  Go strings become Lean `String`,
Go `uint16`/`uint8`/`byte` values become `Nat` (the parser enforces the bit
width explicitly, as `strconv.ParseUint(_, 10, 16)` / `(_, 10, 8)` do), the
`map[string]utls.TLSExtension` becomes a function `String → Option TLSExtension`
updated pointwise (only lookups and key-wise replacement are ever performed on
it), and the heterogeneous `utls` extension structs become a tagged inductive
carrying the payload fields the program reads or writes.  Function-valued
fields of the Go structs (`GetSessionID = sha256.Sum256`,
`GetPaddingLen = utls.BoringPaddingStyle`) are constant function references the
compiler never inspects; they are not modelled.  A fallible Go call returning
`(T, error)` becomes `Except GoError T`; a Go runtime panic (out-of-range
index) is the `GoResult.panicked` constructor.  Go `strings.ToLower` is
modelled by ASCII case folding (`Char.toLower`), which agrees with Go on the
ASCII marker substrings the classifier searches for.
-/

/-- Constant `utls.GREASE_PLACEHOLDER` (0x0a0a). -/
def greasePlaceholder : Nat := 2570

/-- Constant `utls.VersionTLS13` (0x0304). -/
def versionTLS13 : Nat := 772

/-- Constant `utls.VersionTLS12` (0x0303). -/
def versionTLS12 : Nat := 771

/-- Constant `utls.X25519`. -/
def x25519 : Nat := 29

/-- Constant `utls.CurveP256`. -/
def curveP256 : Nat := 23

/-- Constant `utls.PskModeDHE`. -/
def pskModeDHE : Nat := 1

/-- Constant `utls.CertCompressionBrotli`. -/
def certCompressionBrotli : Nat := 2

/-- Constant `utls.RenegotiateOnceAsClient`. -/
def renegotiateOnceAsClient : Nat := 1

/-- The signature-scheme list used for catalog entries "13" and "50"
(`ECDSAWithP256AndSHA256 … PKCS1WithSHA1`, numeric `utls.SignatureScheme`
values, in source order). -/
def defaultSigAlgs : List Nat :=
  [1027, 1283, 1539, 2052, 2053, 2054, 1025, 1281, 1537, 515, 513]

/-- The signature-scheme list of catalog entry "34" (delegated credentials). -/
def delegatedSigAlgs : List Nat := [1027, 1283, 1539, 515]

/-- Model of `utls.KeyShare`: a group together with key data bytes.  `Data` left nil in
Go is the empty list. -/
structure KeyShare where
  group : Nat
  data : List Nat
deriving DecidableEq, Repr

/-- Tagged model of the `utls.TLSExtension` variants the catalog, the override
struct and the compiler construct.  Payload fields are kept exactly where the
Go program reads or writes them. -/
inductive TLSExtension where
  | SNI
  | StatusRequest
  | SignatureAlgorithms (algs : List Nat)
  | ALPN (protocols : List String)
  | GenericExt (id : Nat) (data : List Nat)
  | SCT
  | UtlsPadding
  | ExtendedMasterSecret
  | FakeTokenBinding
  | CompressCert (algs : List Nat)
  | RecordSizeLimit (limit : Nat)
  | DelegatedCredentials (algs : List Nat)
  | SessionTicket
  | UtlsPreSharedKey
  | SupportedVersions (versions : List Nat)
  | Cookie
  | PSKKeyExchangeModes (modes : List Nat)
  | SignatureAlgorithmsCert (algs : List Nat)
  | KeyShareExt (keyShares : List KeyShare)
  | QUICTransportParameters
  | NPN
  | ApplicationSettings (protocols : List String)
  | RenegotiationInfo (mode : Nat)
  | GREASEEncryptedClientHello
  | SupportedCurves (curves : List Nat)
  | SupportedPoints (points : List Nat)
  | GREASE
deriving DecidableEq, Repr

/-- The kind of a `strconv.NumError`: `ErrSyntax` or `ErrRange`. -/
inductive NumErrKind where
  | notNumeric
  | outOfRange
deriving DecidableEq, Repr

/-- The error values `StringToSpec` can return: a `*strconv.NumError`
(carrying the offending token, as `ParseUint` stores the input in `Num`), or
an `*errExtensionNotExist` (carrying the `Context` string). -/
inductive GoError where
  | numError (num : String) (kind : NumErrKind)
  | extensionNotExist (context : String)
deriving DecidableEq, Repr

/-- Message of `(w *errExtensionNotExist) Error()`: the format format names the context
string. -/
def errExtensionNotExistMessage (context : String) : String :=
  "Extension \x7b\x7b " ++ context ++
    " \x7d\x7d is not Supported by requests please raise an issue"

/-- Outcome of a Go call that returns `(*T, error)` and may also panic:
`ok` models `(plan, nil)`, `err` models `(nil, error)` (no plan accompanies an
error), `panicked` models a runtime panic. -/
inductive GoResult (α : Type) where
  | ok (val : α)
  | err (e : GoError)
  | panicked (msg : String)
deriving DecidableEq, Repr

/-- Model of `utls.ClientHelloSpec` as far as `StringToSpec` populates it:
`CipherSuites`, `CompressionMethods` and `Extensions`.  (`GetSessionID` is
always the constant function reference `sha256.Sum256` and the version bounds
are left unset in the source.) -/
structure ClientHelloSpec where
  cipherSuites : List Nat
  compressionMethods : List Nat
  extensions : List TLSExtension
deriving DecidableEq, Repr

/-- The `TLSExtensions` override struct.  Each Go pointer field is an `Option`
of the payload the override carries; `nil` is `none`. -/
structure TLSExtensions where
  supportedSignatureAlgorithms : Option (List Nat)
  certCompressionAlgo : Option (List Nat)
  recordSizeLimit : Option Nat
  delegatedCredentials : Option (List Nat)
  supportedVersions : Option (List Nat)
  pskKeyExchangeModes : Option (List Nat)
  signatureAlgorithmsCert : Option (List Nat)
  keyShareCurves : Option (List KeyShare)
  notUsedGREASE : Bool
  clientHelloHexStream : String
deriving DecidableEq, Repr

/-- The zero value `TLSExtensions{}` substituted for a nil receiver. -/
def defaultTLSExtensions : TLSExtensions :=
  ⟨none, none, none, none, none, none, none, none, false, ""⟩

/-- Constant `chrome`, the chrome user-agent enum value. -/
def chrome : String := "chrome"

/-- Constant `firefox`, the firefox user-agent enum value. -/
def firefox : String := "firefox"

/-- Accumulator worker for `goSplit`. -/
def splitAux (sep : Char) : List Char → List Char → List String
  | [], acc => [String.mk acc.reverse]
  | c :: cs, acc =>
    if c = sep then String.mk acc.reverse :: splitAux sep cs []
    else splitAux sep cs (c :: acc)

/-- Go `strings.Split(s, sep)` for a one-character separator: always returns
at least one field, and `Split("", sep) = [""]`. -/
def goSplit (sep : Char) (s : String) : List String :=
  splitAux sep s.data []

/-- The normalization applied to the curve and point-format fields only:
`if len(l) == 1 && l[0] == "" { l = []string{} }`. -/
def normalizeEmpty (l : List String) : List String :=
  if l = [""] then [] else l

/-- Value of `l[len(l)-1]` for the nonempty lists produced by `goSplit` (the `""`
default is unreachable on such lists). -/
def lastToken : List String → String
  | [] => ""
  | [t] => t
  | _ :: t :: rest => lastToken (t :: rest)

/-- The base-10 value of a digit string (the accumulator loop of `ParseUint`). -/
def digitsVal (s : String) : Nat :=
  s.data.foldl (fun a c => a * 10 + (c.toNat - 48)) 0

/-- Go `strconv.ParseUint(s, 10, bits)`: only ASCII decimal digits, nonempty,
value below `2 ^ bits`; on failure a `*strconv.NumError` carrying `s`. -/
def parseUint (s : String) (bits : Nat) : Except GoError Nat :=
  if s.data = [] then Except.error (GoError.numError s NumErrKind.notNumeric)
  else if s.data.all Char.isDigit then
    if digitsVal s < 2 ^ bits then Except.ok (digitsVal s)
    else Except.error (GoError.numError s NumErrKind.outOfRange)
  else Except.error (GoError.numError s NumErrKind.notNumeric)

/-- A `for … range` loop calling `ParseUint` on each token and returning the
first error. -/
def parseUintList (items : List String) (bits : Nat) : Except GoError (List Nat) :=
  match items with
  | [] => Except.ok []
  | t :: rest =>
    match parseUint t bits with
    | Except.error er => Except.error er
    | Except.ok v =>
      match parseUintList rest bits with
      | Except.error er => Except.error er
      | Except.ok vs => Except.ok (v :: vs)

/-- Go `strings.Contains s sub` on character lists. -/
def containsSub (s sub : List Char) : Bool :=
  (sub.isPrefixOf s) ||
    match s with
    | [] => false
    | _ :: cs => containsSub cs sub

/-- Result of `strings.ToLower` (ASCII case folding) of a string's characters. -/
def lowerData (s : String) : List Char :=
  s.data.map Char.toLower

/-- Classifier `parseUserAgent`: case-insensitive substring match, "chrome" then
"applewebkit" then "firefox", defaulting to chrome. -/
def parseUserAgent (userAgent : String) : String :=
  if containsSub (lowerData userAgent) "chrome".data then chrome
  else if containsSub (lowerData userAgent) "applewebkit".data then chrome
  else if containsSub (lowerData userAgent) "firefox".data then firefox
  else chrome

/-- The extension catalog: a string-keyed map to extension definitions. -/
def ExtMap : Type := String → Option TLSExtension

/-- Key-wise replacement, `extMap[k] = v`.  (Updating a payload through the
pointer stored in the Go map is observationally the same as replacing the
entry, since the map is only ever read back by key.) -/
def setExt (m : ExtMap) (k : String) (v : TLSExtension) : ExtMap :=
  fun q => if q = k then some v else m q

/-- The key/value pairs of the `genMap()` map literal, in source order.  IDs
"10" and "11" are absent on purpose; they are installed from the fingerprint
later. -/
def genList : List (String × TLSExtension) :=
  [("0", TLSExtension.SNI),
   ("5", TLSExtension.StatusRequest),
   ("13", TLSExtension.SignatureAlgorithms defaultSigAlgs),
   ("16", TLSExtension.ALPN ["h2", "http/1.1"]),
   ("17", TLSExtension.GenericExt 17 []),
   ("18", TLSExtension.SCT),
   ("21", TLSExtension.UtlsPadding),
   ("22", TLSExtension.GenericExt 22 []),
   ("23", TLSExtension.ExtendedMasterSecret),
   ("24", TLSExtension.FakeTokenBinding),
   ("27", TLSExtension.CompressCert [certCompressionBrotli]),
   ("28", TLSExtension.RecordSizeLimit 16385),
   ("34", TLSExtension.DelegatedCredentials delegatedSigAlgs),
   ("35", TLSExtension.SessionTicket),
   ("41", TLSExtension.UtlsPreSharedKey),
   ("43", TLSExtension.SupportedVersions [versionTLS13, versionTLS12]),
   ("44", TLSExtension.Cookie),
   ("45", TLSExtension.PSKKeyExchangeModes [pskModeDHE]),
   ("49", TLSExtension.GenericExt 49 []),
   ("50", TLSExtension.SignatureAlgorithmsCert defaultSigAlgs),
   ("51", TLSExtension.KeyShareExt [⟨x25519, []⟩]),
   ("57", TLSExtension.QUICTransportParameters),
   ("13172", TLSExtension.NPN),
   ("17513", TLSExtension.ApplicationSettings ["h2"]),
   ("17613", TLSExtension.ApplicationSettings ["h2"]),
   ("30032", TLSExtension.GenericExt 30032 [0]),
   ("65281", TLSExtension.RenegotiationInfo renegotiateOnceAsClient),
   ("65037", TLSExtension.GREASEEncryptedClientHello)]

/-- Catalog `genMap()`: the fresh per-call catalog, as a key lookup over the map
literal's pairs (Go map keys are distinct, so association-list lookup agrees
with the map). -/
def genMap : ExtMap := fun k =>
  (genList.find? (fun p => p.1 = k)).map Prod.snd

/-- The curve-resolution randomization block (source lines 79–98): given the
chrome-and-not-suppressed condition and the catalog, returns the initial
working curve list and the updated catalog.  Chrome branch: seed the curve
list with the GREASE placeholder, prepend the placeholder to the "43"
supported-versions list (when present with that shape), prepend the synthetic
`{Group: GREASE, Data: {0}}` key share to "51" (when present).  Otherwise:
append a `{Group: CurveP256}` key share to "51". -/
def applyGrease (cond : Bool) (m : ExtMap) : List Nat × ExtMap :=
  if cond then
    let targetCurves := [greasePlaceholder]
    let m1 :=
      match m "43" with
      | some (TLSExtension.SupportedVersions vs) =>
          setExt m "43" (TLSExtension.SupportedVersions (greasePlaceholder :: vs))
      | _ => m
    let m2 :=
      match m1 "51" with
      | some (TLSExtension.KeyShareExt kss) =>
          setExt m1 "51" (TLSExtension.KeyShareExt (⟨greasePlaceholder, [0]⟩ :: kss))
      | _ => m1
    (targetCurves, m2)
  else
    let m1 :=
      match m "51" with
      | some (TLSExtension.KeyShareExt kss) =>
          setExt m "51" (TLSExtension.KeyShareExt (kss ++ [⟨curveP256, []⟩]))
      | _ => m
    ([], m1)

/-- One step of the override merge: `if ext.Field != nil { extMap[id] = ext.Field }`. -/
def overrideStep {α : Type} (o : Option α) (k : String) (f : α → TLSExtension) (m : ExtMap) : ExtMap :=
  match o with
  | some x => setExt m k (f x)
  | none => m

/-- The override merge (source lines 120–145): each non-nil field of the
override struct replaces the catalog entry at its numeric ID wholesale, in
source order 13, 27, 28, 34, 43, 45, 50, 51. -/
def applyOverrides (e : TLSExtensions) (m : ExtMap) : ExtMap :=
  overrideStep e.keyShareCurves "51" TLSExtension.KeyShareExt
    (overrideStep e.signatureAlgorithmsCert "50" TLSExtension.SignatureAlgorithmsCert
      (overrideStep e.pskKeyExchangeModes "45" TLSExtension.PSKKeyExchangeModes
        (overrideStep e.supportedVersions "43" TLSExtension.SupportedVersions
          (overrideStep e.delegatedCredentials "34" TLSExtension.DelegatedCredentials
            (overrideStep e.recordSizeLimit "28" TLSExtension.RecordSizeLimit
              (overrideStep e.certCompressionAlgo "27" TLSExtension.CompressCert
                (overrideStep e.supportedSignatureAlgorithms "13"
                  TLSExtension.SignatureAlgorithms m)))))))

/-- The extension-construction loop (source lines 160–170): look each ID up
in the merged catalog (a miss is `errExtensionNotExist`); on the final ID,
when it is "41" or "21" and the chrome condition holds, a GREASE marker is
emitted just before it. -/
def buildExtsLoop (m : ExtMap) (cond : Bool) : List String → Except GoError (List TLSExtension)
  | [] => Except.ok []
  | e :: rest =>
    match m e with
    | none => Except.error (GoError.extensionNotExist e)
    | some te =>
      match rest with
      | [] =>
        if (e = "41" || e = "21") && cond then Except.ok [TLSExtension.GREASE, te]
        else Except.ok [te]
      | r :: rs =>
        match buildExtsLoop m cond (r :: rs) with
        | Except.error er => Except.error er
        | Except.ok l => Except.ok (te :: l)

/-- The catalog after curve/point installation and the override merge:
extension "10" is `SupportedCurves` of the working prefix plus the parsed
curves, "11" is `SupportedPoints` of the parsed point formats, then the
caller's overrides replace entries wholesale. -/
def mergedExtMap (e : TLSExtensions) (m1 : ExtMap) (targetCurves0 cs ps : List Nat) : ExtMap :=
  applyOverrides e
    (setExt (setExt m1 "10" (TLSExtension.SupportedCurves (targetCurves0 ++ cs)))
      "11" (TLSExtension.SupportedPoints ps))

/-- The body of `StringToSpec` after field extraction (source lines 78–197),
with the Go evaluation order preserved: curve randomization, curve parsing,
"10" install, point-format parsing, "11" install, override merge, version
parsing, extension-sequence assembly (with the trailing-marker rule), cipher
parsing, plan assembly. -/
def compilePlan (e : TLSExtensions) (cond : Bool) (version : String)
    (ciphers extensions curves pointFormats : List String) : GoResult ClientHelloSpec :=
  let greased := applyGrease cond genMap
  match parseUintList curves 16 with
  | Except.error er => GoResult.err er
  | Except.ok cs =>
    match parseUintList pointFormats 8 with
    | Except.error er => GoResult.err er
    | Except.ok ps =>
      let m := mergedExtMap e greased.2 greased.1 cs ps
      match parseUint version 16 with
      | Except.error er => GoResult.err er
      | Except.ok _vid =>
        match buildExtsLoop m cond extensions with
        | Except.error er => GoResult.err er
        | Except.ok mid =>
          let lastE := lastToken extensions
          let exts :=
            (if cond then [TLSExtension.GREASE] else []) ++ mid ++
              (if cond && !(lastE = "21" : Bool) && !(lastE = "41" : Bool)
               then [TLSExtension.GREASE] else [])
          match parseUintList ciphers 16 with
          | Except.error er => GoResult.err er
          | Except.ok cids =>
            GoResult.ok
              ⟨(if cond then [greasePlaceholder] else []) ++ cids, [0], exts⟩

/-- The nil-receiver guard: `if tlsExtensions == nil { tlsExtensions = &TLSExtensions{} }`. -/
def receiverOrDefault (t : Option TLSExtensions) : TLSExtensions :=
  match t with
  | none => defaultTLSExtensions
  | some x => x

/-- The chrome-and-randomization condition
`parsedUserAgent == chrome && !tlsExtensions.NotUsedGREASE`, shared by every
randomization site of the source. -/
def greaseCond (t : Option TLSExtensions) (userAgent : String) : Bool :=
  (parseUserAgent userAgent = chrome : Bool) && !(receiverOrDefault t).notUsedGREASE

/-- Result of `strings.Split(ja3, ",")`. -/
def ja3Tokens (ja3 : String) : List String := goSplit ',' ja3

/-- The extension-ID tokens of a fingerprint, `strings.Split(tokens[2], "-")`. -/
def extTokens (ja3 : String) : List String :=
  goSplit '-' ((ja3Tokens ja3).getD 2 "")

/-- Main entry `(tlsExtensions *TLSExtensions) StringToSpec(ja3, userAgent)`.  The source
indexes `tokens[0]` … `tokens[4]` without a length check, so fewer than five
comma-separated fields is a runtime panic. -/
def stringToSpec (tlsExt : Option TLSExtensions) (ja3 : String) (userAgent : String) :
    GoResult ClientHelloSpec :=
  let e := receiverOrDefault tlsExt
  let tokens := ja3Tokens ja3
  if tokens.length < 5 then
    GoResult.panicked "runtime error: index out of range"
  else
    compilePlan e (greaseCond tlsExt userAgent) (tokens.getD 0 "")
      (goSplit '-' (tokens.getD 1 ""))
      (goSplit '-' (tokens.getD 2 ""))
      (normalizeEmpty (goSplit '-' (tokens.getD 3 "")))
      (normalizeEmpty (goSplit '-' (tokens.getD 4 "")))

/-- Recognizer for the payload-free randomization marker `UtlsGREASEExtension`. -/
def isGreaseMarker : TLSExtension → Bool
  | TLSExtension.GREASE => true
  | _ => false

/-- Number of randomization-marker extensions in a sequence. -/
def countGrease (l : List TLSExtension) : Nat :=
  l.countP isGreaseMarker

/-! ### Basic lemmas about the embedded operations -/

theorem setExt_same (m : ExtMap) (k : String) (v : TLSExtension) :
    setExt m k v k = some v := by
  simp [setExt]

theorem setExt_other (m : ExtMap) (k : String) (v : TLSExtension) (q : String)
    (h : q ≠ k) : setExt m k v q = m q := by
  simp [setExt, h]

/-- Maps whose entries are never the payload-free randomization marker. -/
def noGreaseMap (m : ExtMap) : Prop :=
  ∀ k, m k ≠ some TLSExtension.GREASE

theorem noGreaseMap_genMap : noGreaseMap genMap := by
  intro k h
  unfold genMap at h
  cases hf : genList.find? (fun p => p.1 = k) with
  | none => rw [hf] at h; exact Option.noConfusion h
  | some p =>
    rw [hf] at h
    have hmem : p ∈ genList := List.mem_of_find?_eq_some hf
    have hp : p.2 = TLSExtension.GREASE := by
      simpa using h
    have : ∀ q ∈ genList, q.2 ≠ TLSExtension.GREASE := by decide
    exact this p hmem hp

theorem noGreaseMap_setExt {m : ExtMap} {v : TLSExtension} {k : String}
    (hm : noGreaseMap m) (hv : v ≠ TLSExtension.GREASE) :
    noGreaseMap (setExt m k v) := by
  intro q h
  unfold setExt at h
  split at h
  · exact hv (Option.some.inj h)
  · exact hm q h

theorem noGreaseMap_applyGrease (c : Bool) {m : ExtMap} (hm : noGreaseMap m) :
    noGreaseMap (applyGrease c m).2 := by
  intro k h
  unfold applyGrease at h
  cases c with
  | false =>
    simp only [Bool.false_eq_true, if_false] at h
    split at h
    · exact noGreaseMap_setExt hm (by simp) k h
    · exact hm k h
  | true =>
    simp only [if_true] at h
    split at h
    · split at h
      · exact noGreaseMap_setExt (noGreaseMap_setExt hm (by simp)) (by simp) k h
      · exact noGreaseMap_setExt hm (by simp) k h
    · split at h
      · exact noGreaseMap_setExt hm (by simp) k h
      · exact hm k h

theorem noGreaseMap_overrideStep {α : Type} (o : Option α) (k : String)
    (f : α → TLSExtension) {m : ExtMap} (hm : noGreaseMap m)
    (hf : ∀ x, f x ≠ TLSExtension.GREASE) :
    noGreaseMap (overrideStep o k f m) := by
  cases o with
  | none => exact hm
  | some x => exact noGreaseMap_setExt hm (hf x)

theorem noGreaseMap_applyOverrides (e : TLSExtensions) {m : ExtMap}
    (hm : noGreaseMap m) : noGreaseMap (applyOverrides e m) := by
  unfold applyOverrides
  apply noGreaseMap_overrideStep _ _ _ ?_ (by intro x; simp)
  apply noGreaseMap_overrideStep _ _ _ ?_ (by intro x; simp)
  apply noGreaseMap_overrideStep _ _ _ ?_ (by intro x; simp)
  apply noGreaseMap_overrideStep _ _ _ ?_ (by intro x; simp)
  apply noGreaseMap_overrideStep _ _ _ ?_ (by intro x; simp)
  apply noGreaseMap_overrideStep _ _ _ ?_ (by intro x; simp)
  apply noGreaseMap_overrideStep _ _ _ ?_ (by intro x; simp)
  exact noGreaseMap_overrideStep _ _ _ hm (by intro x; simp)

theorem noGreaseMap_merged (e : TLSExtensions) (cond : Bool)
    (tc cs ps : List Nat) :
    noGreaseMap (mergedExtMap e (applyGrease cond genMap).2 tc cs ps) := by
  unfold mergedExtMap
  exact noGreaseMap_applyOverrides e
    (noGreaseMap_setExt
      (noGreaseMap_setExt (noGreaseMap_applyGrease cond noGreaseMap_genMap) (by simp))
      (by simp))

theorem isGreaseMarker_eq_false {x : TLSExtension} (h : x ≠ TLSExtension.GREASE) :
    isGreaseMarker x = false := by
  cases x <;> first | rfl | exact absurd rfl h

theorem applyGrease_true_fst (m : ExtMap) :
    (applyGrease true m).1 = [greasePlaceholder] := by
  unfold applyGrease
  rw [if_pos rfl]

theorem applyGrease_false_fst (m : ExtMap) : (applyGrease false m).1 = [] := by
  unfold applyGrease
  rw [if_neg (by simp)]

theorem applyGrease_true_43 (m : ExtMap) (vs : List Nat)
    (h : m "43" = some (TLSExtension.SupportedVersions vs)) :
    (applyGrease true m).2 "43" =
      some (TLSExtension.SupportedVersions (greasePlaceholder :: vs)) := by
  unfold applyGrease
  rw [if_pos rfl]
  simp only [h, setExt]
  split <;> simp [setExt]

theorem applyGrease_true_51 (m : ExtMap) (kss : List KeyShare)
    (h : m "51" = some (TLSExtension.KeyShareExt kss)) :
    (applyGrease true m).2 "51" =
      some (TLSExtension.KeyShareExt (⟨greasePlaceholder, [0]⟩ :: kss)) := by
  unfold applyGrease
  rw [if_pos rfl]
  split
  · simp [setExt, h]
  · simp [h, setExt]

theorem applyGrease_false_51 (m : ExtMap) (kss : List KeyShare)
    (h : m "51" = some (TLSExtension.KeyShareExt kss)) :
    (applyGrease false m).2 "51" =
      some (TLSExtension.KeyShareExt (kss ++ [⟨curveP256, []⟩])) := by
  unfold applyGrease
  rw [if_neg (by simp)]
  simp only [h]
  simp [setExt]

theorem applyGrease_false_43 (m : ExtMap) :
    (applyGrease false m).2 "43" = m "43" := by
  unfold applyGrease
  rw [if_neg (by simp)]
  split
  · simp [setExt]
  · rfl

theorem parseUint_error_shape (s : String) (bits : Nat) (er : GoError)
    (h : parseUint s bits = Except.error er) : ∃ k, er = GoError.numError s k := by
  unfold parseUint at h
  split at h
  · exact ⟨_, (Except.error.inj h).symm⟩
  · split at h
    · split at h
      · exact Except.noConfusion h
      · exact ⟨_, (Except.error.inj h).symm⟩
    · exact ⟨_, (Except.error.inj h).symm⟩

theorem parseUint_ok_lt (s : String) (bits : Nat) (v : Nat)
    (h : parseUint s bits = Except.ok v) : v < 2 ^ bits := by
  unfold parseUint at h
  split at h
  · exact Except.noConfusion h
  · split at h
    · split at h
      next hv =>
        injection h with h2
        exact h2 ▸ hv
      · exact Except.noConfusion h
    · exact Except.noConfusion h

theorem lastToken_nil : lastToken [] = "" := rfl

theorem lastToken_singleton (t : String) : lastToken [t] = t := rfl

theorem lastToken_cons_cons (a t : String) (rest : List String) :
    lastToken (a :: t :: rest) = lastToken (t :: rest) := rfl

theorem countGrease_nil : countGrease [] = 0 := rfl

theorem countGrease_cons (x : TLSExtension) (l : List TLSExtension) :
    countGrease (x :: l) = countGrease l + (if isGreaseMarker x then 1 else 0) := by
  simp [countGrease, List.countP_cons]

theorem buildExtsLoop_nil (m : ExtMap) (cond : Bool) :
    buildExtsLoop m cond [] = Except.ok [] := rfl

theorem buildExtsLoop_singleton (m : ExtMap) (cond : Bool) (e : String) :
    buildExtsLoop m cond [e] =
      match m e with
      | none => Except.error (GoError.extensionNotExist e)
      | some te =>
        if (e = "41" || e = "21") && cond then Except.ok [TLSExtension.GREASE, te]
        else Except.ok [te] := by
  rw [buildExtsLoop.eq_2]

theorem buildExtsLoop_cons_cons (m : ExtMap) (cond : Bool) (e e2 : String)
    (rest : List String) :
    buildExtsLoop m cond (e :: e2 :: rest) =
      match m e with
      | none => Except.error (GoError.extensionNotExist e)
      | some te =>
        match buildExtsLoop m cond (e2 :: rest) with
        | Except.error er => Except.error er
        | Except.ok l => Except.ok (te :: l) := by
  rw [buildExtsLoop.eq_2]

theorem buildExtsLoop_length (m : ExtMap) (cond : Bool) :
    ∀ (exts : List String) (l : List TLSExtension),
      buildExtsLoop m cond exts = Except.ok l →
      l.length = exts.length +
        (if ((lastToken exts = "41") || (lastToken exts = "21")) && cond then 1 else 0)
  | [], l, h => by
    rw [buildExtsLoop_nil] at h
    injection h with h2
    subst h2
    rw [lastToken_nil]
    simp
  | [e], l, h => by
    rw [buildExtsLoop_singleton] at h
    split at h
    · exact Except.noConfusion h
    · split at h
      next hcond =>
        injection h with h2
        subst h2
        rw [lastToken_singleton, if_pos hcond]
        rfl
      next hcond =>
        injection h with h2
        subst h2
        rw [lastToken_singleton, if_neg hcond]
        rfl
  | e :: e2 :: rest, l, h => by
    rw [buildExtsLoop_cons_cons] at h
    split at h
    · exact Except.noConfusion h
    · split at h
      · exact Except.noConfusion h
      next l2 heq =>
        injection h with h2
        subst h2
        have ih := buildExtsLoop_length m cond (e2 :: rest) l2 heq
        rw [lastToken_cons_cons]
        simp only [List.length_cons] at ih ⊢
        omega

theorem buildExtsLoop_error_of_find (m : ExtMap) (cond : Bool) :
    ∀ (exts : List String) (e : String),
      exts.find? (fun t => (m t).isNone) = some e →
      buildExtsLoop m cond exts = Except.error (GoError.extensionNotExist e)
  | [], e, h => by simp at h
  | t :: rest, e, h => by
    simp only [List.find?] at h
    cases hmt : (m t).isNone with
    | true =>
      rw [hmt] at h
      simp only [] at h
      injection h with h2
      subst h2
      have hmt' : m t = none := Option.isNone_iff_eq_none.mp hmt
      cases rest with
      | nil => rw [buildExtsLoop_singleton, hmt']
      | cons r rs => rw [buildExtsLoop_cons_cons, hmt']
    | false =>
      rw [hmt] at h
      simp only [] at h
      obtain ⟨te, hte⟩ : ∃ te, m t = some te := by
        cases hm : m t with
        | none => rw [hm] at hmt; exact Bool.noConfusion hmt
        | some te => exact ⟨te, rfl⟩
      cases rest with
      | nil => simp at h
      | cons r rs =>
        have ih := buildExtsLoop_error_of_find m cond (r :: rs) e h
        rw [buildExtsLoop_cons_cons, hte, ih]

theorem buildExtsLoop_countGrease (m : ExtMap) (hm : noGreaseMap m) :
    ∀ (exts : List String) (l : List TLSExtension),
      buildExtsLoop m false exts = Except.ok l → countGrease l = 0
  | [], l, h => by
    rw [buildExtsLoop_nil] at h
    injection h with h2
    subst h2
    rfl
  | [e], l, h => by
    rw [buildExtsLoop_singleton] at h
    split at h
    · exact Except.noConfusion h
    next te hte =>
      split at h
      next hcond => simp at hcond
      next =>
        injection h with h2
        subst h2
        have hne : te ≠ TLSExtension.GREASE := fun hh => hm e (hh ▸ hte)
        rw [countGrease_cons, countGrease_nil, isGreaseMarker_eq_false hne]
        rfl
  | e :: e2 :: rest, l, h => by
    rw [buildExtsLoop_cons_cons] at h
    split at h
    · exact Except.noConfusion h
    next te hte =>
      split at h
      · exact Except.noConfusion h
      next l2 heq =>
        injection h with h2
        subst h2
        have ih := buildExtsLoop_countGrease m hm (e2 :: rest) l2 heq
        have hne : te ≠ TLSExtension.GREASE := fun hh => hm e (hh ▸ hte)
        rw [countGrease_cons, isGreaseMarker_eq_false hne, ih]
        rfl

theorem buildExtsLoop_last_grease (m : ExtMap) :
    ∀ (exts : List String) (l : List TLSExtension),
      buildExtsLoop m true exts = Except.ok l →
      ((lastToken exts = "41") || (lastToken exts = "21")) = true →
      exts ≠ [] →
      ∃ l0 te, m (lastToken exts) = some te ∧ l = l0 ++ [TLSExtension.GREASE, te]
  | [], _, _, _, hne => absurd rfl hne
  | [e], l, h, hlast, _ => by
    rw [buildExtsLoop_singleton] at h
    split at h
    · exact Except.noConfusion h
    next te hte =>
      split at h
      next hcond =>
        injection h with h2
        subst h2
        exact ⟨[], te, by rw [lastToken_singleton]; exact hte, rfl⟩
      next hcond =>
        rw [lastToken_singleton] at hlast
        exact absurd (by rw [hlast, Bool.true_and]) hcond
  | e :: e2 :: rest, l, h, hlast, _ => by
    rw [buildExtsLoop_cons_cons] at h
    split at h
    · exact Except.noConfusion h
    next te hte =>
      split at h
      · exact Except.noConfusion h
      next l2 heq =>
        injection h with h2
        subst h2
        rw [lastToken_cons_cons] at hlast ⊢
        obtain ⟨l0, te2, hm2, hl2⟩ :=
          buildExtsLoop_last_grease m (e2 :: rest) l2 heq hlast (by simp)
        exact ⟨te :: l0, te2, hm2, by simp [hl2]⟩

/-- Inversion: a successful compilation determines every intermediate result
of the pipeline and the shape of the output plan. -/
theorem stringToSpec_ok_inv (tlsExt : Option TLSExtensions) (ja3 ua : String)
    (plan : ClientHelloSpec) (h : stringToSpec tlsExt ja3 ua = GoResult.ok plan) :
    ∃ cs ps vid mid cids,
      parseUintList (normalizeEmpty (goSplit '-' ((ja3Tokens ja3).getD 3 ""))) 16 =
        Except.ok cs ∧
      parseUintList (normalizeEmpty (goSplit '-' ((ja3Tokens ja3).getD 4 ""))) 8 =
        Except.ok ps ∧
      parseUint ((ja3Tokens ja3).getD 0 "") 16 = Except.ok vid ∧
      buildExtsLoop
        (mergedExtMap (receiverOrDefault tlsExt)
          (applyGrease (greaseCond tlsExt ua) genMap).2
          (applyGrease (greaseCond tlsExt ua) genMap).1 cs ps)
        (greaseCond tlsExt ua) (extTokens ja3) = Except.ok mid ∧
      parseUintList (goSplit '-' ((ja3Tokens ja3).getD 1 "")) 16 = Except.ok cids ∧
      plan.extensions =
        (if greaseCond tlsExt ua then [TLSExtension.GREASE] else []) ++ mid ++
          (if greaseCond tlsExt ua && !(lastToken (extTokens ja3) = "21" : Bool)
              && !(lastToken (extTokens ja3) = "41" : Bool)
           then [TLSExtension.GREASE] else []) ∧
      plan.cipherSuites =
        (if greaseCond tlsExt ua then [greasePlaceholder] else []) ++ cids ∧
      plan.compressionMethods = [0] := by
  simp only [stringToSpec] at h
  split at h
  · exact GoResult.noConfusion h
  · simp only [compilePlan] at h
    split at h
    · exact GoResult.noConfusion h
    next cs hcs =>
      split at h
      · exact GoResult.noConfusion h
      next ps hps =>
        split at h
        · exact GoResult.noConfusion h
        next vid hvid =>
          split at h
          · exact GoResult.noConfusion h
          next mid hmid =>
            split at h
            · exact GoResult.noConfusion h
            next cids hcids =>
              injection h with h2
              subst h2
              exact ⟨cs, ps, vid, mid, cids, hcs, hps, hvid, hmid, hcids, rfl, rfl, rfl⟩

theorem splitAux_ne_nil (sep : Char) :
    ∀ (l acc : List Char), splitAux sep l acc ≠ []
  | [], acc => by simp [splitAux]
  | c :: cs, acc => by
    simp only [splitAux]
    split
    · simp
    · exact splitAux_ne_nil sep cs (c :: acc)

theorem goSplit_ne_nil (sep : Char) (s : String) : goSplit sep s ≠ [] :=
  splitAux_ne_nil sep s.data []

/-! ### Claims -/

/-- Claim C1 (code-bug evidence): a fingerprint that splits into fewer than
five comma-separated fields does not yield a structured FormatError with a
nil plan — `StringToSpec` indexes `tokens[1]`…`tokens[4]` without a length
check, so the call is a runtime panic (index out of range).  Evaluated at the
four-field input "771,4865,0,29" and at the empty fingerprint. -/
theorem c1_short_fingerprint_panics :
    stringToSpec none "771,4865,0,29" "Chrome" =
      GoResult.panicked "runtime error: index out of range" ∧
    stringToSpec none "" "Chrome" =
      GoResult.panicked "runtime error: index out of range" :=
  ⟨rfl, rfl⟩

/-- Claim C2 counterexample: in the five-field fingerprint "771,,0,,0" the
cipher field (field 1) is empty, yet compilation fails with a numeric-format
error on the empty token — refuting the claim that every empty list field of
fields 1–4 parses to an empty list and never fails compilation. -/
theorem c2_counterexample :
    stringToSpec none "771,,0,,0" "Chrome" =
      GoResult.err (GoError.numError "" NumErrKind.notNumeric) := rfl

/-- Claim C2 (amended): only the curve and point-format fields (fields 3 and
4) normalize an empty string to an empty list; with an empty curve field
compilation succeeds and extension "10" carries exactly the
randomization-prepended or empty curve list per identity.  An empty cipher
field splits to `[""]` and fails with a numeric-format error; an empty
extension-ID field splits to `[""]` and fails with an unknown-extension
error. -/
theorem c2_amended :
    goSplit '-' "" = [""] ∧
    normalizeEmpty (goSplit '-' "") = [] ∧
    stringToSpec none "771,4865,0-10,,0" "Chrome" =
      GoResult.ok ⟨[greasePlaceholder, 4865], [0],
        [TLSExtension.GREASE, TLSExtension.SNI,
         TLSExtension.SupportedCurves [greasePlaceholder], TLSExtension.GREASE]⟩ ∧
    stringToSpec none "771,4865,0-10,,0" "Firefox" =
      GoResult.ok ⟨[4865], [0],
        [TLSExtension.SNI, TLSExtension.SupportedCurves []]⟩ ∧
    stringToSpec none "771,,0,,0" "Chrome" =
      GoResult.err (GoError.numError "" NumErrKind.notNumeric) ∧
    stringToSpec none "771,4865,,29,0" "Chrome" =
      GoResult.err (GoError.extensionNotExist "") :=
  ⟨rfl, rfl, rfl, rfl, rfl, rfl⟩

/-- Claim C3 counterexample: the out-of-16-bit-range extension-ID token
"99999" is not rejected as a numeric-format error — `StringToSpec` returns
an `errExtensionNotExist` (the IDs are only used as catalog keys). -/
theorem c3_counterexample :
    stringToSpec none "771,4865,99999,29,0" "Chrome" =
      GoResult.err (GoError.extensionNotExist "99999") := rfl

/-- Claim C3 (amended): version, cipher and curve tokens are validated as
16-bit unsigned integers and point-format tokens as 8-bit ones, a failure
producing a numeric-format error that carries the offending token; extension
ID tokens are never numerically validated — a non-numeric or out-of-range
extension ID surfaces as an unknown-extension error naming the token. -/
theorem c3_amended :
    (∀ (s : String) (bits : Nat) (er : GoError),
        parseUint s bits = Except.error er → ∃ k, er = GoError.numError s k) ∧
    (∀ (s : String) (v : Nat), parseUint s 16 = Except.ok v → v < 2 ^ 16) ∧
    (∀ (s : String) (v : Nat), parseUint s 8 = Except.ok v → v < 2 ^ 8) ∧
    stringToSpec none "771,70000,0,29,0" "Chrome" =
      GoResult.err (GoError.numError "70000" NumErrKind.outOfRange) ∧
    stringToSpec none "999999,4865,0,29,0" "Chrome" =
      GoResult.err (GoError.numError "999999" NumErrKind.outOfRange) ∧
    stringToSpec none "771,4865,0,abc,0" "Chrome" =
      GoResult.err (GoError.numError "abc" NumErrKind.notNumeric) ∧
    stringToSpec none "771,4865,0,29,999" "Chrome" =
      GoResult.err (GoError.numError "999" NumErrKind.outOfRange) ∧
    stringToSpec none "771,4865,99999,29,0" "Chrome" =
      GoResult.err (GoError.extensionNotExist "99999") :=
  ⟨fun s bits er h => parseUint_error_shape s bits er h,
   fun s v h => parseUint_ok_lt s 16 v h,
   fun s v h => parseUint_ok_lt s 8 v h,
   rfl, rfl, rfl, rfl, rfl⟩

/-- Witness for the amended C3, instantiating each hypothesis at a concrete
token. -/
theorem c3_amended_witness :
    (∃ k, GoError.numError "abc" NumErrKind.notNumeric = GoError.numError "abc" k) ∧
    (4866 : Nat) < 2 ^ 16 ∧ (0 : Nat) < 2 ^ 8 :=
  ⟨c3_amended.1 "abc" 16 (GoError.numError "abc" NumErrKind.notNumeric) rfl,
   c3_amended.2.1 "4866" 4866 rfl,
   c3_amended.2.2.1 "0" 0 rfl⟩

/-- Claim C8: compiling "771,4865-4866,0-10-11,29-23-24,0" with a chrome-like
identity and randomization enabled yields ciphers `[GREASE, 4865, 4866]`,
extension "10" payload `[GREASE, 29, 23, 24]`, and the extension sequence
marker, SNI, SupportedCurves, SupportedPoints, trailing marker. -/
theorem c8_example_plan :
    stringToSpec none "771,4865-4866,0-10-11,29-23-24,0" "Chrome" =
      GoResult.ok ⟨[greasePlaceholder, 4865, 4866], [0],
        [TLSExtension.GREASE, TLSExtension.SNI,
         TLSExtension.SupportedCurves [greasePlaceholder, 29, 23, 24],
         TLSExtension.SupportedPoints [0], TLSExtension.GREASE]⟩ := rfl

/-- Claim C9: a nil receiver is replaced by the zero-value override struct
before any field access, so `StringToSpec` on a nil receiver equals the call
on the zero value: no overrides are applied, the suppress-randomization flag
is false, and chrome-like identities still get randomization markers. -/
theorem c9_nil_receiver (ja3 ua : String) :
    stringToSpec none ja3 ua = stringToSpec (some defaultTLSExtensions) ja3 ua ∧
    (receiverOrDefault none).notUsedGREASE = false ∧
    (∀ (m : ExtMap) (k : String), applyOverrides defaultTLSExtensions m k = m k) ∧
    greaseCond none "Chrome" = true :=
  ⟨rfl, rfl, fun _ _ => rfl, rfl⟩

/-- Claim C10: an identity string containing a chrome-like marker ("chrome"
or "applewebkit", case-insensitively) classifies as chrome even when it also
contains "firefox", because those branches precede the firefox branch. -/
theorem c10_chrome_over_firefox (ua : String)
    (hc : containsSub (lowerData ua) "chrome".data = true ∨
          containsSub (lowerData ua) "applewebkit".data = true)
    (hf : containsSub (lowerData ua) "firefox".data = true) :
    parseUserAgent ua = chrome := by
  unfold parseUserAgent
  rcases hc with h | h
  · rw [if_pos h]
  · by_cases hch : containsSub (lowerData ua) "chrome".data = true
    · rw [if_pos hch]
    · rw [if_neg hch, if_pos h]

/-- Witness for C10 at "Chrome Firefox", which contains both markers. -/
theorem c10_chrome_over_firefox_witness :
    parseUserAgent "Chrome Firefox" = chrome :=
  c10_chrome_over_firefox "Chrome Firefox" (Or.inl rfl) rfl

theorem overrideStep_other {α : Type} (o : Option α) (k : String)
    (f : α → TLSExtension) (m : ExtMap) (q : String) (h : q ≠ k) :
    overrideStep o k f m q = m q := by
  cases o with
  | none => rfl
  | some x => simp [overrideStep, setExt, h]

theorem mergedExtMap_10 (e : TLSExtensions) (m1 : ExtMap)
    (tc0 cs ps : List Nat) :
    mergedExtMap e m1 tc0 cs ps "10" =
      some (TLSExtension.SupportedCurves (tc0 ++ cs)) := by
  unfold mergedExtMap applyOverrides
  rw [overrideStep_other _ _ _ _ _ (by decide), overrideStep_other _ _ _ _ _ (by decide),
    overrideStep_other _ _ _ _ _ (by decide), overrideStep_other _ _ _ _ _ (by decide),
    overrideStep_other _ _ _ _ _ (by decide), overrideStep_other _ _ _ _ _ (by decide),
    overrideStep_other _ _ _ _ _ (by decide), overrideStep_other _ _ _ _ _ (by decide),
    setExt_other _ _ _ _ (by decide), setExt_same]

/-- Claim C5: curve resolution.  With a chrome-like identity and
randomization not suppressed, the working curve list is seeded with the
GREASE placeholder, the placeholder is prepended to the catalog
supported-versions list (when that entry is present), and a synthetic
key-share `{GREASE, [0]}` is prepended to the catalog key-share entry (when
present); otherwise the working list starts empty, a P-256 key share is
appended to the existing key-share entry, and the supported-versions entry is
untouched.  Afterwards the working prefix followed by the parsed curves is
installed as extension "10", overwriting any prior value even after the
override merge. -/
theorem c5_curve_resolution :
    (∀ m : ExtMap, (applyGrease true m).1 = [greasePlaceholder]) ∧
    (∀ (m : ExtMap) (vs : List Nat),
        m "43" = some (TLSExtension.SupportedVersions vs) →
        (applyGrease true m).2 "43" =
          some (TLSExtension.SupportedVersions (greasePlaceholder :: vs))) ∧
    (∀ (m : ExtMap) (kss : List KeyShare),
        m "51" = some (TLSExtension.KeyShareExt kss) →
        (applyGrease true m).2 "51" =
          some (TLSExtension.KeyShareExt (⟨greasePlaceholder, [0]⟩ :: kss))) ∧
    (∀ m : ExtMap, (applyGrease false m).1 = []) ∧
    (∀ (m : ExtMap) (kss : List KeyShare),
        m "51" = some (TLSExtension.KeyShareExt kss) →
        (applyGrease false m).2 "51" =
          some (TLSExtension.KeyShareExt (kss ++ [⟨curveP256, []⟩]))) ∧
    (∀ m : ExtMap, (applyGrease false m).2 "43" = m "43") ∧
    (∀ (e : TLSExtensions) (m1 : ExtMap) (tc0 cs ps : List Nat),
        mergedExtMap e m1 tc0 cs ps "10" =
          some (TLSExtension.SupportedCurves (tc0 ++ cs))) :=
  ⟨applyGrease_true_fst,
   applyGrease_true_43,
   applyGrease_true_51,
   applyGrease_false_fst,
   applyGrease_false_51,
   applyGrease_false_43,
   mergedExtMap_10⟩

/-- Witness for C5 at the actual catalog `genMap`, whose "43" entry is
`SupportedVersions [TLS1.3, TLS1.2]` and whose "51" entry is
`KeyShare [{X25519}]`. -/
theorem c5_curve_resolution_witness :
    (applyGrease true genMap).1 = [greasePlaceholder] ∧
    (applyGrease true genMap).2 "43" =
      some (TLSExtension.SupportedVersions
        (greasePlaceholder :: [versionTLS13, versionTLS12])) ∧
    (applyGrease true genMap).2 "51" =
      some (TLSExtension.KeyShareExt
        (⟨greasePlaceholder, [0]⟩ :: [⟨x25519, []⟩])) ∧
    (applyGrease false genMap).1 = [] ∧
    (applyGrease false genMap).2 "51" =
      some (TLSExtension.KeyShareExt ([⟨x25519, []⟩] ++ [⟨curveP256, []⟩])) ∧
    (applyGrease false genMap).2 "43" = genMap "43" ∧
    mergedExtMap defaultTLSExtensions genMap [greasePlaceholder] [29] [0] "10" =
      some (TLSExtension.SupportedCurves ([greasePlaceholder] ++ [29])) :=
  ⟨c5_curve_resolution.1 genMap,
   c5_curve_resolution.2.1 genMap [versionTLS13, versionTLS12] rfl,
   c5_curve_resolution.2.2.1 genMap [⟨x25519, []⟩] rfl,
   c5_curve_resolution.2.2.2.1 genMap,
   c5_curve_resolution.2.2.2.2.1 genMap [⟨x25519, []⟩] rfl,
   c5_curve_resolution.2.2.2.2.2.1 genMap,
   c5_curve_resolution.2.2.2.2.2.2 defaultTLSExtensions genMap [greasePlaceholder] [29] [0]⟩

/-- Claim C6 counterexample: the fingerprint "771,4865,99999,abc,0" has the
unknown extension ID "99999" in its extension list, yet `StringToSpec`
returns the curve field's numeric-format error for "abc" — curve,
point-format and version parsing precede the extension walk, so the returned
error is not an ExtensionNotSupportedError naming "99999". -/
theorem c6_counterexample :
    stringToSpec none "771,4865,99999,abc,0" "Chrome" =
      GoResult.err (GoError.numError "abc" NumErrKind.notNumeric) := rfl

/-- Claim C6 (amended): for a fingerprint with at least five fields whose
curve, point-format and version tokens all parse, if the extension-ID list
contains a token absent from the catalog after the override merge, then
`StringToSpec` returns an ExtensionNotSupportedError naming the first such
token, the result is never a plan (errors carry a nil plan), and the error
message spells out that token. -/
theorem c6_unknown_extension (tlsExt : Option TLSExtensions) (ja3 ua : String)
    (cs ps : List Nat) (vid : Nat) (e : String)
    (hlen : ¬ (ja3Tokens ja3).length < 5)
    (hcs : parseUintList (normalizeEmpty (goSplit '-' ((ja3Tokens ja3).getD 3 ""))) 16 =
      Except.ok cs)
    (hps : parseUintList (normalizeEmpty (goSplit '-' ((ja3Tokens ja3).getD 4 ""))) 8 =
      Except.ok ps)
    (hvid : parseUint ((ja3Tokens ja3).getD 0 "") 16 = Except.ok vid)
    (hfind : (extTokens ja3).find?
        (fun t => ((mergedExtMap (receiverOrDefault tlsExt)
          (applyGrease (greaseCond tlsExt ua) genMap).2
          (applyGrease (greaseCond tlsExt ua) genMap).1 cs ps) t).isNone) = some e) :
    stringToSpec tlsExt ja3 ua = GoResult.err (GoError.extensionNotExist e) ∧
    (∀ plan, stringToSpec tlsExt ja3 ua ≠ GoResult.ok plan) ∧
    ∃ pre post, errExtensionNotExistMessage e = pre ++ (e ++ post) := by
  have herr := buildExtsLoop_error_of_find _ (greaseCond tlsExt ua) (extTokens ja3) e hfind
  have hmain : stringToSpec tlsExt ja3 ua = GoResult.err (GoError.extensionNotExist e) := by
    simp only [extTokens] at herr
    simp only [stringToSpec, compilePlan]
    rw [if_neg hlen]
    simp only [hcs, hps, hvid, herr]
  refine ⟨hmain, fun plan hok => ?_, "Extension \x7b\x7b ",
    " \x7d\x7d is not Supported by requests please raise an issue", ?_⟩
  · rw [hmain] at hok
    exact GoResult.noConfusion hok
  · unfold errExtensionNotExistMessage
    exact String.append_assoc _ _ _

/-- Witness for the amended C6 at "771,4865,0-99999,29,0": the unknown ID
"99999" is found after the known ID "0" and is named in the error. -/
theorem c6_unknown_extension_witness :
    stringToSpec none "771,4865,0-99999,29,0" "Chrome" =
      GoResult.err (GoError.extensionNotExist "99999") :=
  (c6_unknown_extension none "771,4865,0-99999,29,0" "Chrome" [29] [0] 771 "99999"
    (by decide) rfl rfl rfl rfl).1

/-- Claim C7: a firefox-like identity never inserts randomization markers no
matter the suppress flag, and a chrome-like identity with the suppress flag
set inserts none either — for the same fingerprint and overrides the two
calls return identical results, and a successful marker-free plan contains
zero marker extensions. -/
theorem c7_firefox_suppress_equiv (f1 f2 : Option (List Nat)) (f3 : Option Nat)
    (f4 f5 f6 f7 : Option (List Nat)) (f8 : Option (List KeyShare)) (b : Bool)
    (hex : String) (ja3 ua1 ua2 : String)
    (h1 : parseUserAgent ua1 = firefox) (h2 : parseUserAgent ua2 = chrome) :
    stringToSpec (some ⟨f1, f2, f3, f4, f5, f6, f7, f8, b, hex⟩) ja3 ua1 =
      stringToSpec (some ⟨f1, f2, f3, f4, f5, f6, f7, f8, true, hex⟩) ja3 ua2 ∧
    (∀ plan,
      stringToSpec (some ⟨f1, f2, f3, f4, f5, f6, f7, f8, b, hex⟩) ja3 ua1 =
        GoResult.ok plan →
      countGrease plan.extensions = 0) := by
  have hc1 : greaseCond (some ⟨f1, f2, f3, f4, f5, f6, f7, f8, b, hex⟩) ua1 = false := by
    simp [greaseCond, receiverOrDefault, h1, firefox, chrome]
  have hc2 : greaseCond (some ⟨f1, f2, f3, f4, f5, f6, f7, f8, true, hex⟩) ua2 = false := by
    simp [greaseCond, receiverOrDefault, h2]
  constructor
  · simp only [stringToSpec, hc1, hc2]
    by_cases hl : (ja3Tokens ja3).length < 5
    · rw [if_pos hl, if_pos hl]
    · rw [if_neg hl, if_neg hl]
      rfl
  · intro plan hok
    obtain ⟨cs, ps, vid, mid, cids, hcs, hps, hvid, hmid, hcids, hext, hciph, hcomp⟩ :=
      stringToSpec_ok_inv _ _ _ _ hok
    rw [hc1] at hmid hext
    simp only [Bool.false_and, Bool.false_eq_true, if_false, List.nil_append,
      List.append_nil] at hext
    rw [hext]
    exact buildExtsLoop_countGrease _
      (noGreaseMap_merged (receiverOrDefault _) false _ cs ps) _ _ hmid

/-- Witness for C7: the concrete fingerprint "771,4865,0,29,0" compiled with
"Firefox" (flag false) and with "Chrome" (flag true) give the same marker-free
plan. -/
theorem c7_firefox_suppress_equiv_witness :
    stringToSpec (some ⟨none, none, none, none, none, none, none, none, false, ""⟩)
        "771,4865,0,29,0" "Firefox" =
      stringToSpec (some ⟨none, none, none, none, none, none, none, none, true, ""⟩)
        "771,4865,0,29,0" "Chrome" ∧
    countGrease (ClientHelloSpec.mk [4865] [0] [TLSExtension.SNI]).extensions = 0 :=
  ⟨(c7_firefox_suppress_equiv none none none none none none none none false ""
      "771,4865,0,29,0" "Firefox" "Chrome" rfl rfl).1,
   (c7_firefox_suppress_equiv none none none none none none none none false ""
      "771,4865,0,29,0" "Firefox" "Chrome" rfl rfl).2 ⟨[4865], [0], [TLSExtension.SNI]⟩ rfl⟩

theorem extTokens_ne_nil (ja3 : String) : extTokens ja3 ≠ [] := by
  unfold extTokens
  exact goSplit_ne_nil '-' _

/-- Claim C4: for every successful compilation, the extension-sequence length
is the parsed extension-ID count plus two markers when the identity is
chrome-like and randomization is not suppressed (one leading marker, plus one
immediately before the final extension if the last parsed ID is "41" or "21",
otherwise one trailing marker) and plus zero markers in every other
identity/flag combination. -/
theorem c4_marker_rules (tlsExt : Option TLSExtensions) (ja3 ua : String)
    (plan : ClientHelloSpec) (h : stringToSpec tlsExt ja3 ua = GoResult.ok plan) :
    plan.extensions.length =
      (extTokens ja3).length + (if greaseCond tlsExt ua then 2 else 0) ∧
    (greaseCond tlsExt ua = true →
      ∃ rest, plan.extensions = TLSExtension.GREASE :: rest) ∧
    (greaseCond tlsExt ua = true →
      ((lastToken (extTokens ja3) = "41") || (lastToken (extTokens ja3) = "21")) = true →
      ∃ l0 te, te ≠ TLSExtension.GREASE ∧
        plan.extensions = l0 ++ [TLSExtension.GREASE, te]) ∧
    (greaseCond tlsExt ua = true →
      ((lastToken (extTokens ja3) = "41") || (lastToken (extTokens ja3) = "21")) = false →
      ∃ l0, plan.extensions = l0 ++ [TLSExtension.GREASE]) ∧
    (greaseCond tlsExt ua = false → countGrease plan.extensions = 0) := by
  obtain ⟨cs, ps, vid, mid, cids, hcs, hps, hvid, hmid, hcids, hext, hciph, hcomp⟩ :=
    stringToSpec_ok_inv _ _ _ _ h
  have hlen := buildExtsLoop_length _ (greaseCond tlsExt ua) _ _ hmid
  cases hgc : greaseCond tlsExt ua with
  | false =>
    rw [hgc] at hmid hext hlen
    simp only [Bool.and_false, Bool.false_and, Bool.false_eq_true, if_false,
      List.nil_append, List.append_nil, Nat.add_zero] at hext hlen
    refine ⟨?_, ?_, ?_, ?_, ?_⟩
    · rw [hext, hlen]
      simp
    · intro hh; exact Bool.noConfusion hh
    · intro hh; exact Bool.noConfusion hh
    · intro hh; exact Bool.noConfusion hh
    · intro _
      rw [hext]
      exact buildExtsLoop_countGrease _
        (noGreaseMap_merged (receiverOrDefault tlsExt) false _ cs ps) _ _ hmid
  | true =>
    rw [hgc] at hmid hext hlen
    simp only [Bool.and_true, Bool.true_and, if_true] at hext hlen
    cases hb : ((lastToken (extTokens ja3) = "41") || (lastToken (extTokens ja3) = "21")) with
    | true =>
      rw [hb] at hlen
      simp only [if_true] at hlen
      have hor : lastToken (extTokens ja3) = "41" ∨ lastToken (extTokens ja3) = "21" := by
        have hb2 := hb
        simp only [Bool.or_eq_true, decide_eq_true_eq] at hb2
        exact hb2
      have hpost : (!(lastToken (extTokens ja3) = "21" : Bool)
          && !(lastToken (extTokens ja3) = "41" : Bool)) = false := by
        rcases hor with hl | hl <;> rw [hl] <;> rfl
      rw [hpost] at hext
      simp only [Bool.false_eq_true, if_false, List.append_nil] at hext
      obtain ⟨l0, te, hmte, hmideq⟩ :=
        buildExtsLoop_last_grease _ (extTokens ja3) mid hmid hb (extTokens_ne_nil ja3)
      have hte_ne : te ≠ TLSExtension.GREASE := fun hh =>
        noGreaseMap_merged (receiverOrDefault tlsExt) true _ cs ps
          (lastToken (extTokens ja3)) (hh ▸ hmte)
      refine ⟨?_, ?_, ?_, ?_, ?_⟩
      · rw [hmideq] at hlen
        rw [hext, hmideq]
        simp only [List.singleton_append, List.length_cons, List.length_append,
          List.length_cons, List.length_nil] at hlen ⊢
        simp at hlen ⊢
        omega
      · intro _
        exact ⟨mid, by rw [hext]; rfl⟩
      · intro _ _
        refine ⟨TLSExtension.GREASE :: l0, te, hte_ne, ?_⟩
        rw [hext, hmideq]
        rfl
      · intro _ hh
        exact Bool.noConfusion hh
      · intro hh
        exact Bool.noConfusion hh
    | false =>
      rw [hb] at hlen
      simp only [Bool.false_eq_true, if_false, Nat.add_zero] at hlen
      have hno : ¬ lastToken (extTokens ja3) = "41" ∧ ¬ lastToken (extTokens ja3) = "21" := by
        have hb2 := hb
        simp only [Bool.or_eq_false_iff, decide_eq_false_iff_not] at hb2
        exact hb2
      have hpost : (!(lastToken (extTokens ja3) = "21" : Bool)
          && !(lastToken (extTokens ja3) = "41" : Bool)) = true := by
        simp [hno.1, hno.2]
      rw [hpost] at hext
      simp only [if_true] at hext
      refine ⟨?_, ?_, ?_, ?_, ?_⟩
      · rw [hext]
        simp only [List.singleton_append, List.length_append, List.length_cons,
          List.length_nil]
        simp
        omega
      · intro _
        exact ⟨mid ++ [TLSExtension.GREASE], by rw [hext]; simp⟩
      · intro _ hh
        exact Bool.noConfusion hh
      · intro _ _
        exact ⟨TLSExtension.GREASE :: mid, by rw [hext]; rfl⟩
      · intro hh
        exact Bool.noConfusion hh

/-- Witness for C4 at the chrome-like compilation of
"771,4865-4866,0-10-11,29-23-24,0" (last ID "11", so one leading and one
trailing marker). -/
theorem c4_marker_rules_witness :
    (ClientHelloSpec.mk [greasePlaceholder, 4865, 4866] [0]
        [TLSExtension.GREASE, TLSExtension.SNI,
         TLSExtension.SupportedCurves [greasePlaceholder, 29, 23, 24],
         TLSExtension.SupportedPoints [0], TLSExtension.GREASE]).extensions.length =
      (extTokens "771,4865-4866,0-10-11,29-23-24,0").length +
        (if greaseCond none "Chrome" then 2 else 0) ∧
    (greaseCond none "Chrome" = true →
      ∃ rest, (ClientHelloSpec.mk [greasePlaceholder, 4865, 4866] [0]
        [TLSExtension.GREASE, TLSExtension.SNI,
         TLSExtension.SupportedCurves [greasePlaceholder, 29, 23, 24],
         TLSExtension.SupportedPoints [0], TLSExtension.GREASE]).extensions =
          TLSExtension.GREASE :: rest) ∧
    (greaseCond none "Chrome" = true →
      ((lastToken (extTokens "771,4865-4866,0-10-11,29-23-24,0") = "41") ||
        (lastToken (extTokens "771,4865-4866,0-10-11,29-23-24,0") = "21")) = true →
      ∃ l0 te, te ≠ TLSExtension.GREASE ∧
        (ClientHelloSpec.mk [greasePlaceholder, 4865, 4866] [0]
          [TLSExtension.GREASE, TLSExtension.SNI,
           TLSExtension.SupportedCurves [greasePlaceholder, 29, 23, 24],
           TLSExtension.SupportedPoints [0], TLSExtension.GREASE]).extensions =
            l0 ++ [TLSExtension.GREASE, te]) ∧
    (greaseCond none "Chrome" = true →
      ((lastToken (extTokens "771,4865-4866,0-10-11,29-23-24,0") = "41") ||
        (lastToken (extTokens "771,4865-4866,0-10-11,29-23-24,0") = "21")) = false →
      ∃ l0, (ClientHelloSpec.mk [greasePlaceholder, 4865, 4866] [0]
        [TLSExtension.GREASE, TLSExtension.SNI,
         TLSExtension.SupportedCurves [greasePlaceholder, 29, 23, 24],
         TLSExtension.SupportedPoints [0], TLSExtension.GREASE]).extensions =
          l0 ++ [TLSExtension.GREASE]) ∧
    (greaseCond none "Chrome" = false →
      countGrease (ClientHelloSpec.mk [greasePlaceholder, 4865, 4866] [0]
        [TLSExtension.GREASE, TLSExtension.SNI,
         TLSExtension.SupportedCurves [greasePlaceholder, 29, 23, 24],
         TLSExtension.SupportedPoints [0], TLSExtension.GREASE]).extensions = 0) :=
  c4_marker_rules none "771,4865-4866,0-10-11,29-23-24,0" "Chrome"
    (ClientHelloSpec.mk [greasePlaceholder, 4865, 4866] [0]
      [TLSExtension.GREASE, TLSExtension.SNI,
       TLSExtension.SupportedCurves [greasePlaceholder, 29, 23, 24],
       TLSExtension.SupportedPoints [0], TLSExtension.GREASE]) rfl
